import Mathlib

/-!
Verification of the mosaic-client frame-protocol client and playback
scheduler, shallowly embedded from the Python source
(`main.py`, `network.py`, `config.py`).

Conventions of the embedding:
- Python byte strings are `List Nat` (one entry per byte; byte values are
  irrelevant to every property proved here, only lengths and positions).
- Python `int` is `Int`.
- Wall-clock time is modelled in integer milliseconds (`Int`): every delay in
  the source is an integer number of milliseconds (`delay_ms`, the 2 s retry
  delay, the 3 s error hold, the 0.1 s poll sleep), so second-valued constants
  appear scaled by 1000 and `time.sleep(frame_delay_ms / 1000.0)` advances the
  clock by `frame_delay_ms`.
- A Python function that can raise inside its `try` block returns `Option`
  (`none` = the exception path).
-/

namespace Mosaic

/-! ### config.py -/

/-- `config.DISPLAY_WIDTH` (line 31). -/
def DISPLAY_WIDTH : Int := 64

/-- `config.DISPLAY_HEIGHT` (line 32). -/
def DISPLAY_HEIGHT : Int := 32

/-- `config.DEFAULT_DWELL_SECS` (line 57). -/
def DEFAULT_DWELL_SECS : Int := 10

/-- `config.MAX_FRAME_DELAY_MS` (line 60).  Defined in the configuration but
referenced nowhere else in the repository. -/
def MAX_FRAME_DELAY_MS : Int := 500

/-- `config.FRAME_FETCH_RETRY_ATTEMPTS` (line 66). -/
def FRAME_FETCH_RETRY_ATTEMPTS : Nat := 3

/-- `config.FRAME_FETCH_RETRY_DELAY` (line 69), in seconds. -/
def FRAME_FETCH_RETRY_DELAY : Int := 2

/-- `config.ERROR_DISPLAY_TIME` (line 72), in seconds. -/
def ERROR_DISPLAY_TIME : Int := 3

/-- `config.BRIGHTNESS` (line 85). -/
def BRIGHTNESS : Int := 200

/-! ### Python slicing

`pixel_bytes[start:end]` on a `bytes` object: negative indices count from the
end, and both bounds are clamped to `[0, len]`. -/

/-- Python slice `xs[start:stop]` (step 1). -/
def pyslice (xs : List Nat) (start stop : Int) : List Nat :=
  let n : Int := xs.length
  let lo : Int := if start < 0 then max (n + start) 0 else min start n
  let hi : Int := if stop < 0 then max (n + stop) 0 else min stop n
  (xs.drop lo.toNat).take (hi - lo).toNat

/-- Python indexing `xs[i]` on a list: negative indices count from the end;
an out-of-range index raises `IndexError` (here: `none`). -/
def pyget (xs : List (List Nat)) (i : Int) : Option (List Nat) :=
  if 0 ≤ i then xs.get? i.toNat
  else if 0 ≤ (xs.length : Int) + i then xs.get? ((xs.length : Int) + i).toNat
  else none

/-! ### main.parse_frame_data (main.py lines 24-56)

```
bytes_per_frame = width * height * 3
total_expected = bytes_per_frame * frame_count
if len(pixel_bytes) < total_expected: return None
frames = []
for i in range(frame_count):
    start = i * bytes_per_frame
    end = start + bytes_per_frame
    frames.append(pixel_bytes[start:end])
return frames
```

No statement of the body can raise on `bytes` input, so the `except` branch
(line 54) is unreachable and the only `None` return is the truncation check. -/

/-- `main.parse_frame_data`. -/
def parse_frame_data (pixel_bytes : List Nat) (frame_count width height : Int) :
    Option (List (List Nat)) :=
  let bytes_per_frame := width * height * 3
  let total_expected := bytes_per_frame * frame_count
  if (pixel_bytes.length : Int) < total_expected then none
  else
    some ((List.range frame_count.toNat).map fun i : Nat =>
      pyslice pixel_bytes ((i : Int) * bytes_per_frame)
        ((i : Int) * bytes_per_frame + bytes_per_frame))

/-! ### Decoder lemmas -/

lemma pyslice_of_nat (xs : List Nat) (a b : Nat) (ha : a ≤ xs.length)
    (hb : b ≤ xs.length) :
    pyslice xs (a : Int) (b : Int) = (xs.drop a).take (b - a) := by
  unfold pyslice
  have h1 : ¬ ((a : Int) < 0) := by omega
  have h2 : ¬ ((b : Int) < 0) := by omega
  simp only [h1, h2, if_false]
  have hmin1 : min (a : Int) (xs.length : Int) = (a : Int) := by omega
  have hmin2 : min (b : Int) (xs.length : Int) = (b : Int) := by omega
  rw [hmin1, hmin2]
  have h3 : ((a : Int)).toNat = a := by omega
  have h4 : ((b : Int) - (a : Int)).toNat = b - a := by omega
  rw [h3, h4]

/-- Concatenating the `n` successive chunks of length `bpf` of a list of
length `n * bpf` reproduces the list. -/
lemma join_chunks (n : Nat) (bpf : Nat) :
    ∀ xs : List Nat, xs.length = n * bpf →
      ((List.range n).map fun i => (xs.drop (i * bpf)).take bpf).flatten = xs := by
  induction n with
  | zero =>
    intro xs hlen
    simp only [Nat.zero_mul, List.length_eq_zero] at hlen
    subst hlen
    simp
  | succ n ih =>
    intro xs hlen
    rw [List.range_succ_eq_map]
    simp only [List.map_cons, List.map_map, List.flatten_cons, Nat.zero_mul, List.drop_zero]
    have hmap : (List.range n).map ((fun i => (xs.drop (i * bpf)).take bpf) ∘ Nat.succ)
        = (List.range n).map fun i => ((xs.drop bpf).drop (i * bpf)).take bpf := by
      apply List.map_congr_left
      intro i _
      simp only [Function.comp_apply]
      rw [List.drop_drop, Nat.succ_mul]
      ring_nf
    rw [hmap, ih (xs.drop bpf)
      (by rw [List.length_drop, hlen, Nat.add_mul, Nat.one_mul, Nat.add_sub_cancel])]
    exact List.take_append_drop bpf xs

/-- On a payload of exactly the declared size, `parse_frame_data` returns the
list of `take`/`drop` chunks of length `w*h*3`. -/
lemma parse_frame_data_exact (payload : List Nat) (n w h : Nat)
    (hlen : payload.length = n * (w * h * 3)) :
    parse_frame_data payload (n : Int) (w : Int) (h : Int) =
      some ((List.range n).map fun i =>
        (payload.drop (i * (w * h * 3))).take (w * h * 3)) := by
  have hcast : ((payload.length : Int)) = (w : Int) * h * 3 * n := by
    rw [hlen]; push_cast; ring
  simp only [parse_frame_data]
  rw [if_neg (by rw [hcast]; exact lt_irrefl _)]
  congr 1
  have hn : ((n : Int)).toNat = n := by omega
  rw [hn]
  apply List.map_congr_left
  intro i hi
  rw [List.mem_range] at hi
  have e1 : (i : Int) * ((w : Int) * h * 3) = ((i * (w * h * 3) : Nat) : Int) := by
    push_cast; ring
  have e2 : ((i * (w * h * 3) : Nat) : Int) + (w : Int) * h * 3
      = ((i * (w * h * 3) + w * h * 3 : Nat) : Int) := by
    push_cast; ring
  have hb1 : i * (w * h * 3) ≤ payload.length := by
    rw [hlen]
    exact Nat.mul_le_mul_right _ (Nat.le_of_lt hi)
  have hb2 : i * (w * h * 3) + w * h * 3 ≤ payload.length := by
    rw [hlen]
    have := Nat.mul_le_mul_right (w * h * 3) hi
    rw [Nat.succ_mul] at this
    exact this
  rw [e1, e2, pyslice_of_nat payload _ _ hb1 hb2]
  congr 1
  omega

/-- **C3** (confirmed).  For every payload, frame count `n ≥ 1` and dimensions
`w`, `h` with `len(payload) = n*w*h*3`, `parse_frame_data` succeeds with
exactly `n` frames, each of length `w*h*3`, where frame `i` is the `i`-th
contiguous segment of the payload, and concatenating the frames in order
reproduces the payload byte-for-byte. -/
theorem decode_roundtrip (payload : List Nat) (n w h : Nat)
    (_hn : 1 ≤ n) (hlen : payload.length = n * w * h * 3) :
    ∃ frames, parse_frame_data payload (n : Int) (w : Int) (h : Int) = some frames ∧
      frames.length = n ∧
      (∀ f ∈ frames, f.length = w * h * 3) ∧
      (∀ i, i < n →
        frames.get? i = some ((payload.drop (i * (w * h * 3))).take (w * h * 3))) ∧
      frames.flatten = payload := by
  have hlen' : payload.length = n * (w * h * 3) := by rw [hlen]; ring
  refine ⟨_, parse_frame_data_exact payload n w h hlen', ?_, ?_, ?_, ?_⟩
  · simp
  · intro f hf
    rw [List.mem_map] at hf
    obtain ⟨i, hi, rfl⟩ := hf
    rw [List.mem_range] at hi
    rw [List.length_take, List.length_drop, hlen']
    have h1 : i * (w * h * 3) + w * h * 3 ≤ n * (w * h * 3) := by
      have := Nat.mul_le_mul_right (w * h * 3) hi
      rw [Nat.succ_mul] at this
      exact this
    omega
  · intro i hi
    rw [List.get?_map, List.get?_range hi]
    rfl
  · exact join_chunks n (w * h * 3) payload hlen'

/-- Witness for C3 at a concrete input: a 6-byte payload, 2 frames of 1x1
pixels. -/
theorem decode_roundtrip_witness :
    ∃ frames, parse_frame_data ([0, 1, 2, 3, 4, 5] : List Nat) 2 1 1 = some frames ∧
      frames.length = 2 ∧
      (∀ f ∈ frames, f.length = 1 * 1 * 3) ∧
      (∀ i, i < 2 →
        frames.get? i
          = some ((([0, 1, 2, 3, 4, 5] : List Nat).drop (i * (1 * 1 * 3))).take (1 * 1 * 3))) ∧
      frames.flatten = [0, 1, 2, 3, 4, 5] :=
  decode_roundtrip [0, 1, 2, 3, 4, 5] 2 1 1 (by decide) (by decide)

/-- **C4** (confirmed).  A payload shorter than `frame_count*width*height*3`
makes `parse_frame_data` fail with `None`; no frame list of any length is
returned on this path. -/
theorem decode_truncated (payload : List Nat) (n w h : Nat)
    (hlt : payload.length < n * w * h * 3) :
    parse_frame_data payload (n : Int) (w : Int) (h : Int) = none := by
  have e : n * w * h * 3 = n * (w * h * 3) := by ring
  rw [e] at hlt
  simp only [parse_frame_data]
  rw [if_pos]
  have : ((payload.length : Int)) < ((n * (w * h * 3) : Nat) : Int) := by
    exact_mod_cast hlt
  calc ((payload.length : Int)) < ((n * (w * h * 3) : Nat) : Int) := this
    _ = (w : Int) * h * 3 * n := by push_cast; ring

/-- Witness for C4 at a concrete input: the empty payload with one declared
1x1 frame. -/
theorem decode_truncated_witness : parse_frame_data ([] : List Nat) 1 1 1 = none :=
  decode_truncated [] 1 1 1 (by decide)

/-! ### network.fetch_frame (network.py lines 61-101)

`fetch_frame` builds, inside one `try` block, a dict with exactly the seven
keys `width, height, frame_count, delay_ms, dwell_secs, brightness, app_name`
(lines 79-87) and returns `(pixels, headers)`; any exception anywhere in the
block (transport failure, or `int()` raising on a malformed present header
value) returns `(None, None)` (lines 99-101).

Modelling choices:
- `Headers` is that seven-key dict; since the dict literal always defines all
  seven keys, it is a structure with all seven fields.
- `RawResponse` is an HTTP response whose status line, headers and body got
  through; `none` in `fetch_frame`'s `resp` argument models any
  transport-level exception (timeout, connection refused, body read error).
- Python's `int(s)` on a header string is the parameter
  `int_of : String → Option Int`; `int_of s = none` models `int(s)` raising
  `ValueError` (a malformed present value). -/

/-- The seven-key metadata dict built by `network.fetch_frame` (lines 79-87). -/
structure Headers where
  width : Int
  height : Int
  frame_count : Int
  delay_ms : Int
  dwell_secs : Int
  brightness : Int
  app_name : String
deriving Repr, DecidableEq

/-- The raw HTTP response: one optional string per metadata header, plus the
body bytes (`response.content`). -/
structure RawResponse where
  hWidth : Option String
  hHeight : Option String
  hCount : Option String
  hDelay : Option String
  hDwell : Option String
  hBrightness : Option String
  hAppName : Option String
  content : List Nat
deriving Repr, DecidableEq

/-- `int(response.headers.get(key, d))`: the default `d` is already an int
when the header is absent; a present value goes through `int()`, which may
raise. -/
def header_int (int_of : String → Option Int) (v : Option String) (d : Int) :
    Option Int :=
  match v with
  | none => some d
  | some s => int_of s

/-- Lines 79-87 of `network.py`: the header dict literal.  The six `int(...)`
calls are evaluated in order and the first raise aborts the whole `try`
block. -/
def parse_headers (int_of : String → Option Int) (r : RawResponse) :
    Option Headers :=
  (header_int int_of r.hWidth 64).bind fun w =>
  (header_int int_of r.hHeight 32).bind fun h =>
  (header_int int_of r.hCount 1).bind fun c =>
  (header_int int_of r.hDelay 100).bind fun dl =>
  (header_int int_of r.hDwell 10).bind fun dw =>
  (header_int int_of r.hBrightness 200).map fun b =>
  ⟨w, h, c, dl, dw, b, r.hAppName.getD "unknown"⟩

/-- `network.fetch_frame`: returns `(pixels, headers)` on success and
`(None, None)` on any exception. -/
def fetch_frame (int_of : String → Option Int) (resp : Option RawResponse) :
    Option (List Nat) × Option Headers :=
  match resp with
  | none => (none, none)
  | some r =>
    match parse_headers int_of r with
    | none => (none, none)
    | some h => (some r.content, some h)

lemma header_int_eq_none {int_of : String → Option Int} {v : Option String}
    {d : Int} (h : header_int int_of v d = none) :
    ∃ s, v = some s ∧ int_of s = none := by
  cases v with
  | none => simp [header_int] at h
  | some s => exact ⟨s, rfl, h⟩

lemma header_int_isSome {int_of : String → Option Int} {v : Option String}
    {d : Int} (h : ∀ s, v = some s → (int_of s).isSome) :
    ∃ x, header_int int_of v d = some x ∧ (v = none → x = d) := by
  cases v with
  | none => exact ⟨d, rfl, fun _ => rfl⟩
  | some s =>
    obtain ⟨x, hx⟩ := Option.isSome_iff_exists.mp (h s rfl)
    exact ⟨x, hx, by intro h'; cases h'⟩

/-- **C8** (confirmed).  A missing metadata header is never a fetch failure:
each absent header takes its default (`width`/`height` → the configured
64x32 resolution, `frame_count` → 1, `delay_ms` → 100, `dwell_secs` → the
configured default dwell, `brightness` → the configured brightness,
`app_name` → `"unknown"`), and header parsing fails only when a *present*
header value is malformed. -/
theorem headers_defaults (int_of : String → Option Int) (r : RawResponse) :
    ((∀ s, r.hWidth = some s → (int_of s).isSome) →
     (∀ s, r.hHeight = some s → (int_of s).isSome) →
     (∀ s, r.hCount = some s → (int_of s).isSome) →
     (∀ s, r.hDelay = some s → (int_of s).isSome) →
     (∀ s, r.hDwell = some s → (int_of s).isSome) →
     (∀ s, r.hBrightness = some s → (int_of s).isSome) →
      ∃ h, parse_headers int_of r = some h ∧
        (r.hWidth = none → h.width = DISPLAY_WIDTH) ∧
        (r.hHeight = none → h.height = DISPLAY_HEIGHT) ∧
        (r.hCount = none → h.frame_count = 1) ∧
        (r.hDelay = none → h.delay_ms = 100) ∧
        (r.hDwell = none → h.dwell_secs = DEFAULT_DWELL_SECS) ∧
        (r.hBrightness = none → h.brightness = BRIGHTNESS) ∧
        (r.hAppName = none → h.app_name = "unknown")) ∧
    (parse_headers int_of r = none →
      ∃ s, (r.hWidth = some s ∨ r.hHeight = some s ∨ r.hCount = some s ∨
            r.hDelay = some s ∨ r.hDwell = some s ∨ r.hBrightness = some s) ∧
        int_of s = none) := by
  constructor
  · intro h1 h2 h3 h4 h5 h6
    obtain ⟨w, hw, hwd⟩ := header_int_isSome (d := 64) h1
    obtain ⟨hh, hhh, hhd⟩ := header_int_isSome (d := 32) h2
    obtain ⟨c, hc, hcd⟩ := header_int_isSome (d := 1) h3
    obtain ⟨dl, hdl, hdld⟩ := header_int_isSome (d := 100) h4
    obtain ⟨dw, hdw, hdwd⟩ := header_int_isSome (d := 10) h5
    obtain ⟨b, hb, hbd⟩ := header_int_isSome (d := 200) h6
    refine ⟨⟨w, hh, c, dl, dw, b, r.hAppName.getD "unknown"⟩, ?_, ?_, ?_, ?_, ?_, ?_, ?_, ?_⟩
    · simp [parse_headers, hw, hhh, hc, hdl, hdw, hb]
    · exact fun h => hwd h
    · exact fun h => hhd h
    · exact fun h => hcd h
    · exact fun h => hdld h
    · exact fun h => hdwd h
    · exact fun h => hbd h
    · intro h; simp [h]
  · intro hnone
    rcases ew : header_int int_of r.hWidth 64 with _ | w
    · obtain ⟨s, hs, hf⟩ := header_int_eq_none ew
      exact ⟨s, Or.inl hs, hf⟩
    rcases eh : header_int int_of r.hHeight 32 with _ | hh
    · obtain ⟨s, hs, hf⟩ := header_int_eq_none eh
      exact ⟨s, Or.inr (Or.inl hs), hf⟩
    rcases ec : header_int int_of r.hCount 1 with _ | c
    · obtain ⟨s, hs, hf⟩ := header_int_eq_none ec
      exact ⟨s, Or.inr (Or.inr (Or.inl hs)), hf⟩
    rcases edl : header_int int_of r.hDelay 100 with _ | dl
    · obtain ⟨s, hs, hf⟩ := header_int_eq_none edl
      exact ⟨s, Or.inr (Or.inr (Or.inr (Or.inl hs))), hf⟩
    rcases edw : header_int int_of r.hDwell 10 with _ | dw
    · obtain ⟨s, hs, hf⟩ := header_int_eq_none edw
      exact ⟨s, Or.inr (Or.inr (Or.inr (Or.inr (Or.inl hs)))), hf⟩
    rcases eb : header_int int_of r.hBrightness 200 with _ | b
    · obtain ⟨s, hs, hf⟩ := header_int_eq_none eb
      exact ⟨s, Or.inr (Or.inr (Or.inr (Or.inr (Or.inr hs)))), hf⟩
    exfalso
    simp [parse_headers, ew, eh, ec, edl, edw, eb] at hnone

/-- Witness for C8: a response with every metadata header absent parses to
exactly the default metadata. -/
theorem headers_defaults_witness :
    ∃ h, parse_headers (fun _ => none) ⟨none, none, none, none, none, none, none, []⟩
        = some h ∧
      (Option.none (α := String) = none → h.width = DISPLAY_WIDTH) ∧
      (Option.none (α := String) = none → h.height = DISPLAY_HEIGHT) ∧
      (Option.none (α := String) = none → h.frame_count = 1) ∧
      (Option.none (α := String) = none → h.delay_ms = 100) ∧
      (Option.none (α := String) = none → h.dwell_secs = DEFAULT_DWELL_SECS) ∧
      (Option.none (α := String) = none → h.brightness = BRIGHTNESS) ∧
      (Option.none (α := String) = none → h.app_name = "unknown") :=
  (headers_defaults (fun _ => none) ⟨none, none, none, none, none, none, none, []⟩).1
    (fun _ h => nomatch h) (fun _ h => nomatch h) (fun _ h => nomatch h)
    (fun _ h => nomatch h) (fun _ h => nomatch h) (fun _ h => nomatch h)

/-- **C10** (confirmed).  `fetch_frame` is all-or-nothing: it returns either
a payload together with the full seven-field header record, or
`(None, None)`; never a payload without headers nor headers without a
payload.  Any exception during the attempt — transport failure
(`resp = none`) or a malformed present header value
(`parse_headers ... = none`) — yields `(None, None)`. -/
theorem fetch_frame_all_or_nothing (int_of : String → Option Int)
    (resp : Option RawResponse) :
    (fetch_frame int_of resp = (none, none) ∨
      ∃ p h, fetch_frame int_of resp = (some p, some h)) ∧
    (resp = none → fetch_frame int_of resp = (none, none)) ∧
    (∀ r, resp = some r → parse_headers int_of r = none →
      fetch_frame int_of resp = (none, none)) ∧
    (∀ r h, resp = some r → parse_headers int_of r = some h →
      fetch_frame int_of resp = (some r.content, some h)) := by
  refine ⟨?_, ?_, ?_, ?_⟩
  · cases resp with
    | none => exact Or.inl rfl
    | some r =>
      cases hp : parse_headers int_of r with
      | none => exact Or.inl (by simp [fetch_frame, hp])
      | some h => exact Or.inr ⟨r.content, h, by simp [fetch_frame, hp]⟩
  · rintro rfl; rfl
  · rintro r rfl hp
    simp [fetch_frame, hp]
  · rintro r h rfl hp
    simp [fetch_frame, hp]

/-- Witness for C10: a transport-level failure returns `(None, None)`. -/
theorem fetch_frame_all_or_nothing_witness :
    fetch_frame (fun _ => none) none = (none, none) :=
  (fetch_frame_all_or_nothing (fun _ => none) none).2.1 rfl

/-! ### The main event loop (main.py lines 104-213)

The loop's observable actions are modelled as timestamped events; the render
sink (`display.display_frame`, `display.show_error_pattern`) is the external
collaborator that consumes them. -/

/-- One observable action of the main loop:
- `render t idx` — `display.display_frame(frames[idx])` at time `t` ms
  (line 182; the frame passed is `frames[idx]`, whose content claim C3
  relates to the payload);
- `errorPattern t kind` — `display.show_error_pattern(kind)` at time `t`;
- `fetchAttempt t` — one `fetch_frame()` transport call at time `t`
  (line 119). -/
inductive Event where
  | render (t : Int) (idx : Int)
  | errorPattern (t : Int) (kind : String)
  | fetchAttempt (t : Int)
deriving Repr, DecidableEq

/-- What one run of the retry loop (lines 115-127) produced: the fetched
`(pixel_data, headers)` if any attempt succeeded, the time when the loop
exited, the times of the transport calls made, and how many inter-attempt
delays were slept. -/
structure RetryOutcome where
  result : Option (List Nat × Headers)
  endTime : Int
  attempts : List Int
  sleeps : Nat
deriving Repr, DecidableEq

/-- The body of the `for attempt in range(max_attempts)` loop of lines
118-127, iterating over the list of remaining loop indices:

```
for attempt in range(FRAME_FETCH_RETRY_ATTEMPTS):
    pixel_data, headers = fetch_frame()
    if pixel_data is not None: break
    if attempt < FRAME_FETCH_RETRY_ATTEMPTS - 1:
        time.sleep(FRAME_FETCH_RETRY_DELAY)
```

`transport k` is what the `k`-th `fetch_frame()` call returns (`none` = the
`(None, None)` failure case). -/
def fetch_retry_go (transport : Nat → Option (List Nat × Headers))
    (remaining : List Nat) (max_attempts : Nat) (t : Int) : RetryOutcome :=
  match remaining with
  | [] => ⟨none, t, [], 0⟩
  | attempt :: rest =>
    match transport attempt with
    | some r => ⟨some r, t, [t], 0⟩
    | none =>
      if attempt < max_attempts - 1 then
        let ro := fetch_retry_go transport rest max_attempts
          (t + FRAME_FETCH_RETRY_DELAY * 1000)
        ⟨ro.result, ro.endTime, t :: ro.attempts, ro.sleeps + 1⟩
      else
        let ro := fetch_retry_go transport rest max_attempts t
        ⟨ro.result, ro.endTime, t :: ro.attempts, ro.sleeps⟩

/-- Lines 118-127 of `main.py`: the whole retry loop, started at time `t`.
The attempt bound is a parameter, instantiated with
`FRAME_FETCH_RETRY_ATTEMPTS` by the main loop. -/
def fetch_retry_loop (transport : Nat → Option (List Nat × Headers))
    (max_attempts : Nat) (t : Int) : RetryOutcome :=
  fetch_retry_go transport (List.range max_attempts) max_attempts t

/-- Lines 180-192 of `main.py`, the playback loop, from frame index
`frame_index` at time `t`:

```
while True:
    display.display_frame(frames[frame_index])
    frame_index += 1
    if frame_index >= frame_count:
        break
    delay_seconds = frame_delay_ms / 1000.0
    time.sleep(delay_seconds)
```

Returns the time when the loop exits and the render events, or `none` when
`frames[frame_index]` raises `IndexError` (which the generic handler at
line 206 catches).  Note the loop *breaks* once `frame_index` reaches
`frame_count`: each frame is rendered exactly once, with no modular wrap.

`fuel` is only a structural termination device: the wrapper `play_anim`
passes `(frame_count - frame_index).toNat`, which over-approximates the
number of loop iterations left after the present one, so the `fuel = 0`
fallback in the continue branch is unreachable. -/
def play_go (frames : List (List Nat)) (frame_count delay_ms : Int) (fuel : Nat)
    (t frame_index : Int) : Option (Int × List Event) :=
  match pyget frames frame_index with
  | none => none
  | some _ =>
    let ev := Event.render t frame_index
    if frame_index + 1 ≥ frame_count then some (t, [ev])
    else
      match fuel with
      | 0 => none
      | fuel + 1 =>
        match play_go frames frame_count delay_ms fuel (t + delay_ms)
            (frame_index + 1) with
        | none => none
        | some r => some (r.1, ev :: r.2)

/-- Lines 180-192 of `main.py`: the playback loop entered with `frame_index`
at time `t`. -/
def play_anim (frames : List (List Nat)) (frame_count delay_ms t frame_index : Int) :
    Option (Int × List Event) :=
  play_go frames frame_count delay_ms (frame_count - frame_index).toNat t frame_index

/-- The loop-carried state of `main` (lines 104-106): `retry_count`,
`last_frame_time` (ms) and `current_dwell_secs`. -/
structure SchedState where
  retry_count : Nat
  last_frame_time : Int
  current_dwell_secs : Int
deriving Repr, DecidableEq

/-- One iteration of the `while True` loop (lines 108-213), given the
transport outcomes for this iteration's fetch attempts, the incoming state
and the current time `now` (= `current_time`, line 111).  Returns the state
after the iteration, the time when the iteration ends, and the events it
performed.

Faithfulness notes:
- `headers.get("frame_count", 1)` etc. (lines 140-146) always find their key
  because `fetch_frame` builds all seven (claim C10), so they are plain field
  reads here.
- `current_dwell_secs` is assigned from the headers at line 142 and
  overwritten with the default on the mismatch (line 153) and parse-failure
  (line 169) paths before it is ever read; each branch below records its net
  value.
- On the error paths (lines 130-137, 148-155, 165-171) the code sets
  `last_frame_time = current_time`, the time captured at line 111 *before*
  the retries — hence `now` there, not the advanced clock.
- A `play_anim` `IndexError` (only possible when `frame_count <= 0`) lands in
  the generic handler (lines 206-213): "connection" pattern, error hold,
  dwell reset, and `last_frame_time = time.time()` taken *after* the hold.
- In the dwell branch (lines 198-200) the loop just sleeps 0.1 s. -/
def main_iteration (transport : Nat → Option (List Nat × Headers))
    (s : SchedState) (now : Int) : SchedState × Int × List Event :=
  if now - s.last_frame_time ≥ s.current_dwell_secs * 1000 then
    let ro := fetch_retry_loop transport FRAME_FETCH_RETRY_ATTEMPTS now
    let fetchEvents := ro.attempts.map Event.fetchAttempt
    match ro.result with
    | none =>
      (⟨s.retry_count + 1, now, DEFAULT_DWELL_SECS⟩,
       ro.endTime + ERROR_DISPLAY_TIME * 1000,
       fetchEvents ++ [Event.errorPattern ro.endTime "connection"])
    | some (pixel_data, headers) =>
      if headers.width ≠ DISPLAY_WIDTH ∨ headers.height ≠ DISPLAY_HEIGHT then
        (⟨s.retry_count, now, DEFAULT_DWELL_SECS⟩,
         ro.endTime + ERROR_DISPLAY_TIME * 1000,
         fetchEvents ++ [Event.errorPattern ro.endTime "format"])
      else
        match parse_frame_data pixel_data headers.frame_count headers.width
            headers.height with
        | none =>
          (⟨s.retry_count, now, DEFAULT_DWELL_SECS⟩,
           ro.endTime + ERROR_DISPLAY_TIME * 1000,
           fetchEvents ++ [Event.errorPattern ro.endTime "format"])
        | some frames =>
          match play_anim frames headers.frame_count headers.delay_ms
              ro.endTime 0 with
          | none =>
            (⟨s.retry_count, ro.endTime + ERROR_DISPLAY_TIME * 1000,
              DEFAULT_DWELL_SECS⟩,
             ro.endTime + ERROR_DISPLAY_TIME * 1000,
             fetchEvents ++ [Event.errorPattern ro.endTime "connection"])
          | some (tf, renders) =>
            (⟨0, tf, headers.dwell_secs⟩, tf, fetchEvents ++ renders)
  else
    (s, now + 100, [])

/-! ### Playback-loop lemmas -/

lemma pyget_pos {frames : List (List Nat)} {j : Int} (hj : 0 ≤ j)
    (hlt : j.toNat < frames.length) : ∃ fr, pyget frames j = some fr := by
  unfold pyget
  rw [if_pos hj]
  cases hg : frames.get? j.toNat with
  | none =>
    rw [List.get?_eq_none] at hg
    omega
  | some fr => exact ⟨fr, rfl⟩

/-- Full characterisation of the playback loop entered at index `j` with
enough fuel: it renders frames `j, j+1, …, frame_count-1` at times spaced
exactly `delay_ms` apart, and exits right after the last render. -/
lemma play_go_spec :
    ∀ (fuel : Nat) (frames : List (List Nat)) (n delay t j : Int),
      0 ≤ j → j < n → frames.length = n.toNat → (n - j).toNat ≤ fuel + 1 →
      play_go frames n delay fuel t j =
        some (t + (n - 1 - j) * delay,
          (List.range (n - j).toNat).map fun i : Nat =>
            Event.render (t + (i : Int) * delay) (j + (i : Int))) := by
  intro fuel
  induction fuel with
  | zero =>
    intro frames n delay t j hj hjn hlen hfuel
    obtain ⟨fr, hfr⟩ := @pyget_pos frames j hj (by omega)
    have hj1 : j + 1 ≥ n := by omega
    have hnj : (n - j).toNat = 1 := by omega
    have h0 : n - 1 - j = 0 := by omega
    rw [play_go.eq_def, hfr]
    dsimp only
    rw [if_pos hj1, hnj, h0]
    simp [List.range_succ]
  | succ fuel ih =>
    intro frames n delay t j hj hjn hlen hfuel
    obtain ⟨fr, hfr⟩ := @pyget_pos frames j hj (by omega)
    by_cases hj1 : j + 1 ≥ n
    · have hnj : (n - j).toNat = 1 := by omega
      have h0 : n - 1 - j = 0 := by omega
      rw [play_go.eq_def, hfr]
      dsimp only
      rw [if_pos hj1, hnj, h0]
      simp [List.range_succ]
    · push_neg at hj1
      rw [play_go.eq_def, hfr]
      dsimp only
      rw [if_neg (by omega)]
      rw [ih frames n delay (t + delay) (j + 1) (by omega) (by omega) hlen (by omega)]
      refine congrArg some (Prod.ext ?_ ?_)
      · ring_nf
      · have hsz : (n - j).toNat = (n - (j + 1)).toNat + 1 := by omega
        rw [hsz, List.range_succ_eq_map]
        simp only [List.map_cons, List.map_map, Nat.cast_zero, zero_mul, add_zero]
        congr 1
        apply List.map_congr_left
        intro i _
        simp only [Function.comp_apply]
        congr 1
        · push_cast; ring
        · push_cast; ring

/-- The playback loop entered at index `j` (as `main` does at `j = 0`). -/
lemma play_anim_spec (frames : List (List Nat)) (n delay t j : Int)
    (hj : 0 ≤ j) (hjn : j < n) (hlen : frames.length = n.toNat) :
    play_anim frames n delay t j =
      some (t + (n - 1 - j) * delay,
        (List.range (n - j).toNat).map fun i : Nat =>
          Event.render (t + (i : Int) * delay) (j + (i : Int))) := by
  unfold play_anim
  exact play_go_spec ((n - j).toNat) frames n delay t j hj hjn hlen (by omega)

/-- The playback loop as entered by `main`: starting at frame 0, it renders
each of the `n` frames exactly once, frame `i` at time `t + i * delay_ms`,
and exits at the time of the last render. -/
lemma play_anim_start (frames : List (List Nat)) (n : Nat) (delay t : Int)
    (hn : 1 ≤ n) (hlen : frames.length = n) :
    play_anim frames (n : Int) delay t 0 =
      some (t + ((n : Int) - 1) * delay,
        (List.range n).map fun i : Nat =>
          Event.render (t + (i : Int) * delay) (i : Int)) := by
  have h := play_anim_spec frames (n : Int) delay t 0 (le_refl 0)
    (by exact_mod_cast hn) (by omega)
  rw [h]
  have e1 : ((n : Int) - 0).toNat = n := by omega
  rw [e1]
  norm_num

/-! ### Retry-loop lemmas -/

/-- Running the retry loop body over indices `a, …, a+k-1` (with
`a + k = max_attempts`) when every transport call fails: all `k` calls are
made, with a sleep after each except the last. -/
lemma retry_go_all_fail (transport : Nat → Option (List Nat × Headers)) (m : Nat)
    (hfail : ∀ k, transport k = none) :
    ∀ (k a : Nat) (t : Int), a + k = m → 1 ≤ k →
      fetch_retry_go transport (List.range' a k) m t =
        ⟨none, t + ((k : Int) - 1) * (FRAME_FETCH_RETRY_DELAY * 1000),
         (List.range k).map
           (fun i : Nat => t + (i : Int) * (FRAME_FETCH_RETRY_DELAY * 1000)),
         k - 1⟩ := by
  intro k
  induction k with
  | zero => intro a t _ h1; omega
  | succ k ih =>
    intro a t ham _
    rw [List.range'_succ]
    rw [fetch_retry_go.eq_def]
    dsimp only
    rw [hfail a]
    by_cases hk : k = 0
    · subst hk
      rw [if_neg (by omega)]
      rw [show fetch_retry_go transport (List.range' (a + 1) 0 1) m t
            = ⟨none, t, [], 0⟩ from rfl]
      simp [List.range_succ, FRAME_FETCH_RETRY_DELAY]
    · rw [if_pos (by omega)]
      rw [ih (a + 1) (t + FRAME_FETCH_RETRY_DELAY * 1000) (by omega) (by omega)]
      simp only [RetryOutcome.mk.injEq, true_and]
      refine ⟨?_, ?_, by omega⟩
      · push_cast
        ring
      · conv_rhs => rw [List.range_succ_eq_map]
        simp only [List.map_cons, List.map_map, Nat.cast_zero, zero_mul, add_zero]
        congr 1
        apply List.map_congr_left
        intro i _
        simp only [Function.comp_apply]
        push_cast
        ring

/-- Running the retry loop body over indices `a, …, a+k-1` (with
`a + k = max_attempts`) when attempts `< j` fail and attempt `j` succeeds:
the loop breaks at attempt `j` after `j - a` sleeps. -/
lemma retry_go_success (transport : Nat → Option (List Nat × Headers)) (m j : Nat)
    (r : List Nat × Headers) (hjm : j < m)
    (hfail : ∀ k, k < j → transport k = none) (hj : transport j = some r) :
    ∀ (k a : Nat) (t : Int), a + k = m → a ≤ j →
      fetch_retry_go transport (List.range' a k) m t =
        ⟨some r, t + ((j - a : Nat) : Int) * (FRAME_FETCH_RETRY_DELAY * 1000),
         (List.range (j - a + 1)).map
           (fun i : Nat => t + (i : Int) * (FRAME_FETCH_RETRY_DELAY * 1000)),
         j - a⟩ := by
  intro k
  induction k with
  | zero => intro a t ham haj; omega
  | succ k ih =>
    intro a t ham haj
    rw [List.range'_succ]
    rw [fetch_retry_go.eq_def]
    dsimp only
    by_cases haj' : a = j
    · subst haj'
      rw [hj]
      simp [List.range_succ]
    · have haj2 : a < j := by omega
      rw [hfail a haj2]
      rw [if_pos (by omega)]
      rw [ih (a + 1) (t + FRAME_FETCH_RETRY_DELAY * 1000) (by omega) (by omega)]
      simp only [RetryOutcome.mk.injEq, true_and]
      refine ⟨?_, ?_, by omega⟩
      · simp only [FRAME_FETCH_RETRY_DELAY]
        omega
      · conv_rhs => rw [show j - a + 1 = (j - (a + 1) + 1) + 1 by omega,
          List.range_succ_eq_map]
        simp only [List.map_cons, List.map_map, Nat.cast_zero, zero_mul, add_zero]
        congr 1
        apply List.map_congr_left
        intro i _
        simp only [Function.comp_apply]
        push_cast
        ring

/-- The whole retry loop, all attempts failing: exactly `max_attempts`
transport calls at times `t, t+2000, …`, one sleep between consecutive
attempts (none after the last), and no result. -/
lemma fetch_retry_loop_all_fail (transport : Nat → Option (List Nat × Headers))
    (m : Nat) (t : Int) (hm : 1 ≤ m) (hfail : ∀ k, transport k = none) :
    fetch_retry_loop transport m t =
      ⟨none, t + ((m : Int) - 1) * (FRAME_FETCH_RETRY_DELAY * 1000),
       (List.range m).map
         (fun i : Nat => t + (i : Int) * (FRAME_FETCH_RETRY_DELAY * 1000)),
       m - 1⟩ := by
  unfold fetch_retry_loop
  conv_lhs => rw [List.range_eq_range']
  exact retry_go_all_fail transport m hfail m 0 t (by omega) hm

/-- The whole retry loop, first success at attempt `j`: `j + 1` transport
calls, `j` sleeps, and the successful result. -/
lemma fetch_retry_loop_success (transport : Nat → Option (List Nat × Headers))
    (m j : Nat) (r : List Nat × Headers) (t : Int) (hjm : j < m)
    (hfail : ∀ k, k < j → transport k = none) (hj : transport j = some r) :
    fetch_retry_loop transport m t =
      ⟨some r, t + (j : Int) * (FRAME_FETCH_RETRY_DELAY * 1000),
       (List.range (j + 1)).map
         (fun i : Nat => t + (i : Int) * (FRAME_FETCH_RETRY_DELAY * 1000)),
       j⟩ := by
  unfold fetch_retry_loop
  conv_lhs => rw [List.range_eq_range']
  have h := retry_go_success transport m j r hjm hfail hj m 0 t (by omega) (by omega)
  simpa using h

/-- The retry loop when the very first attempt succeeds (the usual path of
`main`): one call, no sleeps, ends at `t`. -/
lemma fetch_retry_loop_first (transport : Nat → Option (List Nat × Headers))
    (r : List Nat × Headers) (t : Int) (ht : transport 0 = some r) :
    fetch_retry_loop transport FRAME_FETCH_RETRY_ATTEMPTS t = ⟨some r, t, [t], 0⟩ := by
  have h := fetch_retry_loop_success transport FRAME_FETCH_RETRY_ATTEMPTS 0 r t
    (by norm_num [FRAME_FETCH_RETRY_ATTEMPTS]) (fun k hk => absurd hk (Nat.not_lt_zero k)) ht
  simpa [List.range_succ] using h

/-! ### Scheduler-iteration lemmas -/

/-- Dwell not yet expired (lines 198-200): the iteration only sleeps 0.1 s;
no fetch, no render, no state change. -/
lemma main_iteration_sleep (transport : Nat → Option (List Nat × Headers))
    (s : SchedState) (now : Int)
    (h : ¬ now - s.last_frame_time ≥ s.current_dwell_secs * 1000) :
    main_iteration transport s now = (s, now + 100, []) := by
  simp only [main_iteration]
  rw [if_neg h]

/-- The successful-fetch iteration: the first transport attempt returns a
well-formed response (`64x32`, `n ≥ 1` frames, full payload).  One transport
call at `now`, then each frame `i` is rendered exactly once at
`now + i * delay_ms`; the loop exits at the last render time, which becomes
`last_frame_time`; `retry_count` resets to 0 and the dwell is taken from the
headers. -/
lemma main_iteration_success (transport : Nat → Option (List Nat × Headers))
    (s : SchedState) (now : Int) (payload : List Nat) (hd : Headers) (n : Nat)
    (hdw : now - s.last_frame_time ≥ s.current_dwell_secs * 1000)
    (ht : transport 0 = some (payload, hd))
    (hw : hd.width = DISPLAY_WIDTH) (hh : hd.height = DISPLAY_HEIGHT)
    (hn : hd.frame_count = (n : Int)) (hn1 : 1 ≤ n)
    (hlen : payload.length = n * 6144) :
    main_iteration transport s now =
      (⟨0, now + ((n : Int) - 1) * hd.delay_ms, hd.dwell_secs⟩,
       now + ((n : Int) - 1) * hd.delay_ms,
       Event.fetchAttempt now ::
         (List.range n).map fun i : Nat =>
           Event.render (now + (i : Int) * hd.delay_ms) (i : Int)) := by
  have hro := fetch_retry_loop_first transport (payload, hd) now ht
  have hparse : parse_frame_data payload hd.frame_count hd.width hd.height
      = some ((List.range n).map fun i : Nat =>
          (payload.drop (i * (64 * 32 * 3))).take (64 * 32 * 3)) := by
    rw [hn, hw, hh]
    have h64 : DISPLAY_WIDTH = ((64 : Nat) : Int) := by norm_num [DISPLAY_WIDTH]
    have h32 : DISPLAY_HEIGHT = ((32 : Nat) : Int) := by norm_num [DISPLAY_HEIGHT]
    rw [h64, h32]
    exact parse_frame_data_exact payload n 64 32 (by omega)
  have hframes_len : ((List.range n).map fun i : Nat =>
      (payload.drop (i * (64 * 32 * 3))).take (64 * 32 * 3)).length = n := by simp
  have hplay := play_anim_start ((List.range n).map fun i : Nat =>
      (payload.drop (i * (64 * 32 * 3))).take (64 * 32 * 3)) n hd.delay_ms now hn1
    hframes_len
  simp only [main_iteration]
  rw [if_pos hdw, hro]
  dsimp only
  rw [if_neg (by simp [hw, hh])]
  rw [hparse]
  dsimp only
  rw [hn, hplay]
  dsimp only
  simp

/-- The fetch-exhausted iteration (lines 130-137): three failed transport
calls 2 s apart, the "connection" error pattern, a 3 s error hold,
`retry_count` incremented, dwell reset to the default, and
`last_frame_time` set to the iteration's start time `now`. -/
lemma main_iteration_exhausted (transport : Nat → Option (List Nat × Headers))
    (s : SchedState) (now : Int)
    (hdw : now - s.last_frame_time ≥ s.current_dwell_secs * 1000)
    (hfail : ∀ k, transport k = none) :
    main_iteration transport s now =
      (⟨s.retry_count + 1, now, DEFAULT_DWELL_SECS⟩,
       now + 7000,
       [Event.fetchAttempt now, Event.fetchAttempt (now + 2000),
        Event.fetchAttempt (now + 4000),
        Event.errorPattern (now + 4000) "connection"]) := by
  have hro := fetch_retry_loop_all_fail transport FRAME_FETCH_RETRY_ATTEMPTS now
    (by norm_num [FRAME_FETCH_RETRY_ATTEMPTS]) hfail
  simp only [main_iteration]
  rw [if_pos hdw, hro]
  dsimp only
  norm_num [FRAME_FETCH_RETRY_ATTEMPTS, FRAME_FETCH_RETRY_DELAY, ERROR_DISPLAY_TIME,
    List.range_succ]
  ring_nf

/-- The dimension-mismatch iteration (lines 148-155): the fetch succeeds but
the declared size differs from the 64x32 display; the "format" error pattern
is shown, the dwell resets to the default, `last_frame_time` is set to `now`,
and `retry_count` is NOT incremented. -/
lemma main_iteration_mismatch (transport : Nat → Option (List Nat × Headers))
    (s : SchedState) (now : Int) (payload : List Nat) (hd : Headers)
    (hdw : now - s.last_frame_time ≥ s.current_dwell_secs * 1000)
    (ht : transport 0 = some (payload, hd))
    (hmm : hd.width ≠ DISPLAY_WIDTH ∨ hd.height ≠ DISPLAY_HEIGHT) :
    main_iteration transport s now =
      (⟨s.retry_count, now, DEFAULT_DWELL_SECS⟩,
       now + 3000,
       [Event.fetchAttempt now, Event.errorPattern now "format"]) := by
  have hro := fetch_retry_loop_first transport (payload, hd) now ht
  simp only [main_iteration]
  rw [if_pos hdw, hro]
  dsimp only
  rw [if_pos hmm]
  norm_num [ERROR_DISPLAY_TIME]

/-- The decode-failure iteration (lines 165-171): the fetch succeeds with
matching dimensions but `parse_frame_data` returns `None`; the "format"
error pattern is shown, the dwell resets to the default, `last_frame_time`
is set to `now`, and `retry_count` is NOT incremented. -/
lemma main_iteration_parsefail (transport : Nat → Option (List Nat × Headers))
    (s : SchedState) (now : Int) (payload : List Nat) (hd : Headers)
    (hdw : now - s.last_frame_time ≥ s.current_dwell_secs * 1000)
    (ht : transport 0 = some (payload, hd))
    (hw : hd.width = DISPLAY_WIDTH) (hh : hd.height = DISPLAY_HEIGHT)
    (hparse : parse_frame_data payload hd.frame_count hd.width hd.height = none) :
    main_iteration transport s now =
      (⟨s.retry_count, now, DEFAULT_DWELL_SECS⟩,
       now + 3000,
       [Event.fetchAttempt now, Event.errorPattern now "format"]) := by
  have hro := fetch_retry_loop_first transport (payload, hd) now ht
  simp only [main_iteration]
  rw [if_pos hdw, hro]
  dsimp only
  rw [if_neg (by simp [hw, hh])]
  rw [hparse]
  norm_num [ERROR_DISPLAY_TIME]

/-- Whenever the retry loop runs (at least one attempt allowed), its first
transport call happens at the loop's start time. -/
lemma fetch_retry_loop_attempts_head (transport : Nat → Option (List Nat × Headers))
    (m : Nat) (t : Int) (hm : 1 ≤ m) :
    ∃ rest, (fetch_retry_loop transport m t).attempts = t :: rest := by
  obtain ⟨m', rfl⟩ : ∃ m', m = m' + 1 := ⟨m - 1, by omega⟩
  unfold fetch_retry_loop
  rw [List.range_eq_range', List.range'_succ]
  rw [fetch_retry_go.eq_def]
  dsimp only
  cases h0 : transport 0 with
  | some r => exact ⟨[], rfl⟩
  | none =>
    by_cases h1 : 0 < m' + 1 - 1
    · rw [if_pos h1]
      exact ⟨_, rfl⟩
    · rw [if_neg h1]
      exact ⟨_, rfl⟩

/-- Whenever the dwell has expired at the top of an iteration, the iteration
makes a fetch attempt at `now` — on every branch, success or failure. -/
lemma main_iteration_fetch_on_expiry (transport : Nat → Option (List Nat × Headers))
    (s : SchedState) (now : Int)
    (hdw : now - s.last_frame_time ≥ s.current_dwell_secs * 1000) :
    Event.fetchAttempt now ∈ (main_iteration transport s now).2.2 := by
  obtain ⟨rest, hat⟩ := fetch_retry_loop_attempts_head transport
    FRAME_FETCH_RETRY_ATTEMPTS now (by norm_num [FRAME_FETCH_RETRY_ATTEMPTS])
  simp only [main_iteration]
  rw [if_pos hdw, hat]
  split <;> try simp
  split <;> try simp
  split <;> try simp
  split <;> simp

/-! ### Concrete scenarios

Payload contents are irrelevant to the scheduler properties (only lengths
matter), so all-zero payloads of the right byte counts are used. -/

/-- A full 2-frame 64x32 payload: `2 * 64 * 32 * 3` bytes. -/
def payload2 : List Nat := List.replicate 12288 0

/-- The metadata of the spec's end-to-end scenario:
`{width:64, height:32, frame_count:2, frame_delay_ms:200, dwell_secs:5}`. -/
def hdr2 : Headers := ⟨64, 32, 2, 200, 5, 200, "clock"⟩

/-- A server that always returns the 2-frame scenario response. -/
def tr2frames : Nat → Option (List Nat × Headers) := fun _ => some (payload2, hdr2)

/-- A full 3-frame 64x32 payload: `3 * 64 * 32 * 3` bytes. -/
def payload3 : List Nat := List.replicate 18432 0

/-- 3 frames at 3000 ms each with a 5 s dwell: playback (9 s) outlives the
dwell window. -/
def hdr3 : Headers := ⟨64, 32, 3, 3000, 5, 200, "slides"⟩

/-- A server that always returns the 3-frame slow animation. -/
def tr3frames : Nat → Option (List Nat × Headers) := fun _ => some (payload3, hdr3)

/-- A single 64x32 frame payload: `64 * 32 * 3` bytes. -/
def payload1 : List Nat := List.replicate 6144 0

/-- A single-frame response with `frame_delay_ms = 200`, `dwell_secs = 10`. -/
def hdr1 : Headers := ⟨64, 32, 1, 200, 10, 200, "static"⟩

/-- A server that always returns the single-frame response. -/
def tr1frame : Nat → Option (List Nat × Headers) := fun _ => some (payload1, hdr1)

/-- A 2-frame response whose `frame_delay_ms = 5000` exceeds
`MAX_FRAME_DELAY_MS = 500` tenfold. -/
def hdr9 : Headers := ⟨64, 32, 2, 5000, 5, 200, "slow"⟩

/-- A server that always returns the over-slow-delay response. -/
def tr9 : Nat → Option (List Nat × Headers) := fun _ => some (payload2, hdr9)

/-- A transport stub that fails twice, then succeeds. -/
def tr5 : Nat → Option (List Nat × Headers) :=
  fun k => if k < 2 then none else some ([9], ⟨64, 32, 1, 100, 10, 200, "w"⟩)

/-! ### Claim theorems for the retry policy and scheduler -/

/-- **C5** (confirmed).  The retry loop either returns on the first
successful attempt — after `j` failures it makes `j + 1` transport calls and
sleeps the inter-retry delay exactly `j` times (so 3 calls and 2 sleeps in
the fails-twice-then-succeeds, `max_attempts = 3` scenario) — or exhausts
all attempts: exactly `max_attempts` transport calls, `max_attempts - 1`
sleeps (between attempts only, none after the final one), and no result. -/
theorem fetch_retry_policy :
    (∀ (transport : Nat → Option (List Nat × Headers)) (m j : Nat) (t : Int)
        (r : List Nat × Headers), j < m → (∀ k, k < j → transport k = none) →
        transport j = some r →
        fetch_retry_loop transport m t =
          ⟨some r, t + (j : Int) * (FRAME_FETCH_RETRY_DELAY * 1000),
           (List.range (j + 1)).map
             (fun i : Nat => t + (i : Int) * (FRAME_FETCH_RETRY_DELAY * 1000)), j⟩) ∧
    (∀ (transport : Nat → Option (List Nat × Headers)) (m : Nat) (t : Int),
        1 ≤ m → (∀ k, transport k = none) →
        fetch_retry_loop transport m t =
          ⟨none, t + ((m : Int) - 1) * (FRAME_FETCH_RETRY_DELAY * 1000),
           (List.range m).map
             (fun i : Nat => t + (i : Int) * (FRAME_FETCH_RETRY_DELAY * 1000)),
           m - 1⟩) :=
  ⟨fun transport m j t r hjm hfail hj =>
      fetch_retry_loop_success transport m j r t hjm hfail hj,
   fun transport m t hm hfail => fetch_retry_loop_all_fail transport m t hm hfail⟩

/-- Witness for C5: the fails-twice-then-succeeds stub with
`max_attempts = 3` returns the success after 3 calls (at t = 0 ms, 2000 ms,
4000 ms) and exactly 2 sleeps. -/
theorem fetch_retry_policy_witness :
    fetch_retry_loop tr5 3 0
      = ⟨some ([9], ⟨64, 32, 1, 100, 10, 200, "w"⟩), 4000, [0, 2000, 4000], 2⟩ := by
  have h := fetch_retry_policy.1 tr5 3 2 0 ([9], ⟨64, 32, 1, 100, 10, 200, "w"⟩)
    (by decide) (fun k hk => by unfold tr5; rw [if_pos hk]) rfl
  exact h.trans (by decide)

/-- **C6** (confirmed).  On every error path the dwell interval is reset to
the configured default, discarding any learned dwell (the incoming
`s.current_dwell_secs` is arbitrary); `retry_count` is incremented only on
fetch exhaustion, not on dimension mismatch nor decode failure. -/
theorem error_paths_reset_dwell (transport : Nat → Option (List Nat × Headers))
    (s : SchedState) (now : Int)
    (hdw : now - s.last_frame_time ≥ s.current_dwell_secs * 1000) :
    ((∀ k, transport k = none) →
      (main_iteration transport s now).1
        = ⟨s.retry_count + 1, now, DEFAULT_DWELL_SECS⟩) ∧
    (∀ payload hd, transport 0 = some (payload, hd) →
      hd.width ≠ DISPLAY_WIDTH ∨ hd.height ≠ DISPLAY_HEIGHT →
      (main_iteration transport s now).1
        = ⟨s.retry_count, now, DEFAULT_DWELL_SECS⟩) ∧
    (∀ payload hd, transport 0 = some (payload, hd) →
      hd.width = DISPLAY_WIDTH → hd.height = DISPLAY_HEIGHT →
      parse_frame_data payload hd.frame_count hd.width hd.height = none →
      (main_iteration transport s now).1
        = ⟨s.retry_count, now, DEFAULT_DWELL_SECS⟩) := by
  refine ⟨fun hf => ?_, fun p hd ht hmm => ?_, fun p hd ht hw hh hp => ?_⟩
  · rw [main_iteration_exhausted transport s now hdw hf]
  · rw [main_iteration_mismatch transport s now p hd hdw ht hmm]
  · rw [main_iteration_parsefail transport s now p hd hdw ht hw hh hp]

/-- Witness for C6: with a learned dwell of 7 s and `retry_count = 5`, an
exhausted fetch leaves `retry_count = 6` and the dwell reset to the
default. -/
theorem error_paths_reset_dwell_witness :
    (main_iteration (fun _ => none) ⟨5, 0, 7⟩ 7000).1 = ⟨6, 7000, DEFAULT_DWELL_SECS⟩ :=
  (error_paths_reset_dwell (fun _ => none) ⟨5, 0, 7⟩ 7000 (by decide)).1 (fun _ => rfl)

/-- **C9** (confirmed).  The inter-frame pacing used by the main loop is the
server-declared `delay_ms` itself, with no upper clamp: even when
`MAX_FRAME_DELAY_MS < delay_ms`, frame `i` is rendered at
`now + i * delay_ms` — the configured `MAX_FRAME_DELAY_MS` is never applied
(indeed no definition of this development references it). -/
theorem no_frame_delay_clamp (transport : Nat → Option (List Nat × Headers))
    (s : SchedState) (now : Int) (payload : List Nat) (hd : Headers) (n : Nat)
    (hdw : now - s.last_frame_time ≥ s.current_dwell_secs * 1000)
    (ht : transport 0 = some (payload, hd))
    (hw : hd.width = DISPLAY_WIDTH) (hh : hd.height = DISPLAY_HEIGHT)
    (hn : hd.frame_count = (n : Int)) (hn1 : 1 ≤ n)
    (hlen : payload.length = n * 6144)
    (_hbig : MAX_FRAME_DELAY_MS < hd.delay_ms) :
    (main_iteration transport s now).2.2
      = Event.fetchAttempt now ::
        (List.range n).map (fun i : Nat =>
          Event.render (now + (i : Int) * hd.delay_ms) (i : Int)) := by
  rw [main_iteration_success transport s now payload hd n hdw ht hw hh hn hn1 hlen]

/-- Witness for C9: a server-declared delay of 5000 ms (ten times
`MAX_FRAME_DELAY_MS`) is used unmodified — the second frame renders 5000 ms
after the first. -/
theorem no_frame_delay_clamp_witness :
    (main_iteration tr9 ⟨0, 0, 0⟩ 0).2.2
      = [Event.fetchAttempt 0, Event.render 0 0, Event.render 5000 1] := by
  have h := no_frame_delay_clamp tr9 ⟨0, 0, 0⟩ 0 payload2 hdr9 2 (by decide) rfl
    rfl rfl rfl (by decide) (by norm_num [payload2]) (by decide)
  exact h.trans (by decide)

/-- **C1** refuted at the spec's own end-to-end scenario
(`frame_count = 2`, `frame_delay_ms = 200`, `dwell_secs = 5`, fetched at
t = 0 into a default state): the iteration renders frame 0 at t = 0 and
frame 1 at t = 200 and then exits playback — frame 0 is NOT rendered again
at t ≈ 400 (the frame index increments without `mod frame_count` wrap), and
at t = 5000 the scheduler is still inside the dwell window (the dwell timer
restarted from the playback end at t = 200), so there is no re-fetch attempt
at t ≈ 5000. -/
theorem playback_loop_counterexample :
    (main_iteration tr2frames ⟨0, 0, 0⟩ 0).2.2
        = [Event.fetchAttempt 0, Event.render 0 0, Event.render 200 1] ∧
    Event.render 400 0 ∉ (main_iteration tr2frames ⟨0, 0, 0⟩ 0).2.2 ∧
    (main_iteration tr2frames ⟨0, 0, 0⟩ 0).1 = ⟨0, 200, 5⟩ ∧
    (main_iteration tr2frames ⟨0, 200, 5⟩ 5000).2.2 = [] := by
  have h := main_iteration_success tr2frames ⟨0, 0, 0⟩ 0 payload2 hdr2 2
    (by decide) rfl rfl rfl rfl (by decide) (by norm_num [payload2])
  rw [h]
  decide

/-- **C1 amended** (proved).  While an installed animation's dwell window
has not expired the scheduler renders nothing; on each fetch it plays the
animation exactly once — frame `i` at `now + i * frame_delay_ms`,
`frame_index` incrementing without wrap, playback exiting after the last
frame — then sets `last_frame_time` to the last render time, so for the
2-frame / 200 ms / 5 s scenario frames render at t = 0 and t ≈ 200 ms only
and the re-fetch attempt happens once `now - last_frame_time ≥ 5 s`
(t ≈ 5200 ms), not at t ≈ 5000 ms. -/
theorem playback_once_per_fetch (transport : Nat → Option (List Nat × Headers))
    (s : SchedState) (now : Int) (payload : List Nat) (hd : Headers) (n : Nat)
    (hdw : now - s.last_frame_time ≥ s.current_dwell_secs * 1000)
    (ht : transport 0 = some (payload, hd))
    (hw : hd.width = DISPLAY_WIDTH) (hh : hd.height = DISPLAY_HEIGHT)
    (hn : hd.frame_count = (n : Int)) (hn1 : 1 ≤ n)
    (hlen : payload.length = n * 6144) :
    main_iteration transport s now
      = (⟨0, now + ((n : Int) - 1) * hd.delay_ms, hd.dwell_secs⟩,
         now + ((n : Int) - 1) * hd.delay_ms,
         Event.fetchAttempt now ::
           (List.range n).map fun i : Nat =>
             Event.render (now + (i : Int) * hd.delay_ms) (i : Int)) ∧
    (∀ (s' : SchedState) (now' : Int),
      now' - s'.last_frame_time < s'.current_dwell_secs * 1000 →
      main_iteration transport s' now' = (s', now' + 100, [])) ∧
    (∀ (s' : SchedState) (now' : Int),
      now' - s'.last_frame_time ≥ s'.current_dwell_secs * 1000 →
      Event.fetchAttempt now' ∈ (main_iteration transport s' now').2.2) :=
  ⟨main_iteration_success transport s now payload hd n hdw ht hw hh hn hn1 hlen,
   fun s' now' h => main_iteration_sleep transport s' now' (by omega),
   fun s' now' h => main_iteration_fetch_on_expiry transport s' now' h⟩

/-- Witness for the amended C1 at the 2-frame scenario: the iteration at
t = 0 renders frames at 0 and 200 ms, resets `retry_count`, installs
`dwell_secs = 5` and restarts the dwell timer at 200 ms. -/
theorem playback_once_per_fetch_witness :
    main_iteration tr2frames ⟨0, 0, 0⟩ 0
      = (⟨0, 200, 5⟩, 200,
         [Event.fetchAttempt 0, Event.render 0 0, Event.render 200 1]) := by
  have h := (playback_once_per_fetch tr2frames ⟨0, 0, 0⟩ 0 payload2 hdr2 2
    (by decide) rfl rfl rfl rfl (by decide) (by norm_num [payload2])).1
  exact h.trans (by decide)

/-- **C2** refuted at a concrete input: a 3-frame animation at 3000 ms per
frame with `dwell_secs = 5` is fetched at t = 0; the dwell expires at
t = 5000 in the middle of playback, yet the scheduler still renders frame 2
at t = 6000 — the only fetch attempt in the whole iteration is the one at
t = 0, so dwell expiry does not preempt mid-animation playback. -/
theorem dwell_preemption_counterexample :
    (main_iteration tr3frames ⟨0, 0, 0⟩ 0).2.2
        = [Event.fetchAttempt 0, Event.render 0 0, Event.render 3000 1,
           Event.render 6000 2] ∧
    (main_iteration tr3frames ⟨0, 0, 0⟩ 0).1.last_frame_time = 6000 := by
  have h := main_iteration_success tr3frames ⟨0, 0, 0⟩ 0 payload3 hdr3 3
    (by decide) rfl rfl rfl rfl (by decide) (by norm_num [payload3])
  rw [h]
  decide

/-- **C2 amended** (proved).  Dwell expiry never preempts playback: once an
animation is installed by an iteration, that iteration's playback loop runs
to the last frame even when the dwell window (measured from the fetch)
ends strictly before the last render, and the only fetch attempt of the
iteration is the one at its start; the dwell comparison happens solely at
the top of an iteration, where an unexpired dwell yields a pure 0.1 s
sleep. -/
theorem dwell_checked_between_playbacks (transport : Nat → Option (List Nat × Headers))
    (s : SchedState) (now : Int) (payload : List Nat) (hd : Headers) (n : Nat)
    (hdw : now - s.last_frame_time ≥ s.current_dwell_secs * 1000)
    (ht : transport 0 = some (payload, hd))
    (hw : hd.width = DISPLAY_WIDTH) (hh : hd.height = DISPLAY_HEIGHT)
    (hn : hd.frame_count = (n : Int)) (hn1 : 1 ≤ n)
    (hlen : payload.length = n * 6144)
    (_hexp : hd.dwell_secs * 1000 ≤ ((n : Int) - 1) * hd.delay_ms) :
    Event.render (now + ((n : Int) - 1) * hd.delay_ms) ((n : Int) - 1)
        ∈ (main_iteration transport s now).2.2 ∧
    (∀ t', Event.fetchAttempt t' ∈ (main_iteration transport s now).2.2 → t' = now) ∧
    (∀ (s' : SchedState) (now' : Int),
      now' - s'.last_frame_time < s'.current_dwell_secs * 1000 →
      main_iteration transport s' now' = (s', now' + 100, [])) := by
  have h := main_iteration_success transport s now payload hd n hdw ht hw hh hn hn1 hlen
  refine ⟨?_, ?_, fun s' now' h' => main_iteration_sleep transport s' now' (by omega)⟩
  · rw [h]
    have hc : ((n - 1 : Nat) : Int) = (n : Int) - 1 := by omega
    exact List.mem_cons_of_mem _
      (List.mem_map.mpr ⟨n - 1, List.mem_range.mpr (by omega), by rw [hc]⟩)
  · intro t' ht'
    rw [h] at ht'
    rcases List.mem_cons.mp ht' with h1 | h2
    · exact Event.fetchAttempt.inj h1
    · exfalso
      obtain ⟨i, _, hi⟩ := List.mem_map.mp h2
      simp at hi

/-- Witness for the amended C2: in the 3-frame / 3000 ms / 5 s-dwell
scenario the final frame still renders at t = 6000, after the dwell expired
at t = 5000. -/
theorem dwell_checked_between_playbacks_witness :
    Event.render 6000 2 ∈ (main_iteration tr3frames ⟨0, 0, 0⟩ 0).2.2 := by
  have h := (dwell_checked_between_playbacks tr3frames ⟨0, 0, 0⟩ 0 payload3 hdr3 3
    (by decide) rfl rfl rfl rfl (by decide) (by norm_num [payload3]) (by decide)).1
  simpa [hdr3] using h

/-- **C7** refuted at a concrete input: with `frame_count = 1`,
`frame_delay_ms = 200` and `dwell_secs = 10`, the fetch at t = 0 renders the
single frame exactly once, at t = 0; the subsequent iterations inside the
dwell window (t = 200, t = 5000) render nothing — the frame is NOT rendered
repeatedly at the 200 ms cadence. -/
theorem single_frame_counterexample :
    (main_iteration tr1frame ⟨0, 0, 0⟩ 0).2.2
        = [Event.fetchAttempt 0, Event.render 0 0] ∧
    (main_iteration tr1frame ⟨0, 0, 0⟩ 0).1 = ⟨0, 0, 10⟩ ∧
    (main_iteration tr1frame ⟨0, 0, 10⟩ 200).2.2 = [] ∧
    (main_iteration tr1frame ⟨0, 0, 10⟩ 5000).2.2 = [] := by
  have h := main_iteration_success tr1frame ⟨0, 0, 0⟩ 0 payload1 hdr1 1
    (by decide) rfl rfl rfl rfl (by decide) (by norm_num [payload1])
  rw [h]
  decide

/-- **C7 amended** (proved).  A single-frame animation goes through the same
general playback loop (these are the same `main_iteration`/`play_anim`
definitions used for every `frame_count`, with no `frame_count = 1` special
case), which renders the one frame exactly once per fetch, at the fetch
time, with no frame-delay sleep (the loop breaks before sleeping, so
playback ends at the render time); within the dwell window no further
renders occur until the next fetch. -/
theorem single_frame_once (transport : Nat → Option (List Nat × Headers))
    (s : SchedState) (now : Int) (payload : List Nat) (hd : Headers)
    (hdw : now - s.last_frame_time ≥ s.current_dwell_secs * 1000)
    (ht : transport 0 = some (payload, hd))
    (hw : hd.width = DISPLAY_WIDTH) (hh : hd.height = DISPLAY_HEIGHT)
    (hn : hd.frame_count = 1) (hlen : payload.length = 6144) :
    main_iteration transport s now
      = (⟨0, now, hd.dwell_secs⟩, now,
         [Event.fetchAttempt now, Event.render now 0]) ∧
    (∀ (s' : SchedState) (now' : Int),
      now' - s'.last_frame_time < s'.current_dwell_secs * 1000 →
      main_iteration transport s' now' = (s', now' + 100, [])) := by
  constructor
  · have h := main_iteration_success transport s now payload hd 1 hdw ht hw hh
      (by exact_mod_cast hn) (le_refl 1) (by omega)
    rw [h]
    norm_num [List.range_succ]
  · exact fun s' now' h' => main_iteration_sleep transport s' now' (by omega)

/-- Witness for the amended C7 at the single-frame scenario. -/
theorem single_frame_once_witness :
    main_iteration tr1frame ⟨0, 0, 0⟩ 0
      = (⟨0, 0, 10⟩, 0, [Event.fetchAttempt 0, Event.render 0 0]) := by
  have h := (single_frame_once tr1frame ⟨0, 0, 0⟩ 0 payload1 hdr1
    (by decide) rfl rfl rfl rfl (by norm_num [payload1])).1
  exact h.trans (by decide)

end Mosaic
